import Mathlib

/-!
Shallow embedding of the progress-to-phase state machine of
`src/src/screens/InitializationScreen.tsx`.

The embedding covers, faithfully to the source:
* the `InitProgress` snapshot type and the fixed `MODULES` list;
* the phase-progression effect (lines 759-788): the three transition
  guards all read the render-time `phase`, the last `setPhase` call in
  program order wins, and one effect run is modelled by `phaseEffectRun`;
* the module-ready ping effect (lines 736-750) with its
  `prevModulesRef` previous-snapshot map (`pingEffectRun`);
* the simulated progress source `useSimulatedProgress` (lines 94-131)
  (`simSnapshot`, `simRun`);
* a timer/cleanup trace machine (`CompState`, `deliver`, `fireDue`,
  `unmount`) reproducing the React effect semantics: before an effect
  re-runs (its dependency array, which includes `phase`, changed) the
  cleanup function returned by its previous run executes, and on unmount
  the last registered cleanup executes.  `setTimeout` handles that the
  code does not keep are modelled as timers that no cleanup can cancel.

Numbers are rationals; `percent` and timer delays are exact.
-/

/-- The fixed ordered set of module names (`MODULES` in the source). -/
inductive ModuleName where
  | speechSystem
  | voiceEngine
  | knowledgeCore
  | visionSystem
deriving DecidableEq, Repr

/-- `const MODULES = ["Speech System", "Voice Engine", "Knowledge Core", "Vision System"]`. -/
def MODULES : List ModuleName :=
  [.speechSystem, .voiceEngine, .knowledgeCore, .visionSystem]

/-- `InitProgress`: a progress snapshot.  `modules` is the partial record
`Partial<Record<ModuleName, boolean>>`: `none` at a name means the key is
absent from the object. -/
structure InitProgress where
  systemReady : Bool
  percent : Option ℚ
  modules : Option (ModuleName → Option Bool)
  message : Option String

/-- `PHASE.AWAKENING` -/
def PHASE.AWAKENING : ℕ := 1
/-- `PHASE.ACTIVATION` -/
def PHASE.ACTIVATION : ℕ := 2
/-- `PHASE.MODULES` -/
def PHASE.MODULES : ℕ := 3
/-- `PHASE.STABLE` -/
def PHASE.STABLE : ℕ := 4

/-- `const clamp = (n, a = 0, b = 1) => Math.max(a, Math.min(b, n))`. -/
def clamp (n a b : ℚ) : ℚ := max a (min b n)

/-- `pg?.percent ?? 0`. -/
def pctOf (pg : Option InitProgress) : ℚ :=
  (pg.bind InitProgress.percent).getD 0

/-- `!!pg?.modules?.[m]`: readiness of module `m` with absent keys read as `false`. -/
def moduleVal (pg : Option InitProgress) (m : ModuleName) : Bool :=
  match pg with
  | none => false
  | some p =>
    match p.modules with
    | none => false
    | some f => (f m).getD false

/-- `!!pg?.modules && Object.keys(pg.modules).length > 0`: the `modules`
field is present and has at least one key. -/
def anyModuleData (pg : Option InitProgress) : Bool :=
  match pg with
  | none => false
  | some p =>
    match p.modules with
    | none => false
    | some f => MODULES.any fun m => (f m).isSome

/-- `MODULES.every(m => !!pg?.modules?.[m])`. -/
def allReady (pg : Option InitProgress) : Bool :=
  MODULES.all fun m => moduleVal pg m

/-- `pg?.systemReady` read as a boolean (absent snapshot is falsy). -/
def systemReadyOf (pg : Option InitProgress) : Bool :=
  match pg with
  | none => false
  | some p => p.systemReady

/-- Guard of `if (phase === PHASE.AWAKENING && pct > 0.15)`. -/
def rule1 (phase : ℕ) (pg : Option InitProgress) : Bool :=
  (phase == PHASE.AWAKENING) && decide ((15 : ℚ)/100 < pctOf pg)

/-- Guard of `if (phase <= PHASE.ACTIVATION && (pct > 0.3 || anyModuleData))`. -/
def rule2 (phase : ℕ) (pg : Option InitProgress) : Bool :=
  decide (phase ≤ PHASE.ACTIVATION) &&
    (decide ((3 : ℚ)/10 < pctOf pg) || anyModuleData pg)

/-- Guard of `if ((pg?.systemReady || allReady) && phase !== PHASE.STABLE)`. -/
def rule3 (phase : ℕ) (pg : Option InitProgress) : Bool :=
  (systemReadyOf pg || allReady pg) && (phase != PHASE.STABLE)

/-- Observable output of one run of the phase-progression effect body. -/
structure PhaseEffects where
  newPhase : ℕ
  /-- durations, in program order, of the `setGlitching` pulses armed by this run -/
  glitchDurations : List ℚ
  /-- whether the 2500 ms terminal hold `setTimeout` was armed -/
  armHold : Bool
  /-- whether `chime.play()` was called -/
  chime : Bool
  /-- argument of `ambience.fadeOut`, when called -/
  ambienceFadeMs : Option ℚ
deriving DecidableEq, Repr

/-- One run of the phase-progression effect body (lines 759-787).  All three
guards read the same render-time `phase`; when several `setPhase` calls occur
in one run the last one in program order wins. -/
def phaseEffectRun (phase : ℕ) (pg : Option InitProgress) : PhaseEffects :=
  { newPhase :=
      if rule3 phase pg then PHASE.STABLE
      else if rule2 phase pg then PHASE.MODULES
      else if rule1 phase pg then PHASE.ACTIVATION
      else phase
    glitchDurations :=
      (if rule1 phase pg then [(300 : ℚ)] else []) ++
      (if rule2 phase pg then [(300 : ℚ)] else []) ++
      (if rule3 phase pg then [(500 : ℚ)] else [])
    armHold := rule3 phase pg
    chime := rule3 phase pg
    ambienceFadeMs := if rule3 phase pg then some 1200 else none }

/-- The phase committed after one run of the phase-progression effect. -/
def phaseStep (phase : ℕ) (pg : Option InitProgress) : ℕ :=
  (phaseEffectRun phase pg).newPhase

/-- Observable output of one run of the module-ready ping effect. -/
structure PingEffects where
  /-- modules whose cue (`ping.play()`) fired in this run, in `MODULES` order -/
  pings : List ModuleName
  /-- durations of the `setGlitching` pulses armed by this run (one 200 ms
  pulse per fired cue) -/
  glitchDurations : List ℚ
deriving DecidableEq, Repr

/-- One run of the module-ready ping effect (lines 737-750).  `prev` is
`prevModulesRef.current`; the run returns the new value of the ref together
with the effects.  The effect returns no cleanup function. -/
def pingEffectRun (prev : ModuleName → Bool) (pg : Option InitProgress) :
    (ModuleName → Bool) × PingEffects :=
  let now : ModuleName → Bool := fun m => moduleVal pg m
  let fired := MODULES.filter fun m => !prev m && now m
  (now, { pings := fired, glitchDurations := fired.map fun _ => (200 : ℚ) })

/-- Total number of cue firings for module `m` along a snapshot sequence,
starting from ref value `prev`. -/
def pingCountAux (m : ModuleName) (prev : ModuleName → Bool) :
    List (Option InitProgress) → ℕ
  | [] => 0
  | pg :: rest =>
    (pingEffectRun prev pg).2.pings.count m +
      pingCountAux m (pingEffectRun prev pg).1 rest

/-- Total number of cue firings for module `m` over a component lifetime
(`prevModulesRef` starts as the empty object `{}`). -/
def pingCountFor (m : ModuleName) (pgs : List (Option InitProgress)) : ℕ :=
  pingCountAux m (fun _ => false) pgs

/-- Number of false-to-true edges in a boolean sequence, `prev` being the
value before the first element.  This is the specification-side notion of
a readiness edge. -/
def edgeCount : Bool → List Bool → ℕ
  | _, [] => 0
  | prev, b :: bs => (if !prev && b then 1 else 0) + edgeCount b bs

/-- Number of false-to-true (or absent-to-true) edges of module `m`'s
readiness along a snapshot sequence, starting from "absent". -/
def moduleEdgeCount (m : ModuleName) (pgs : List (Option InitProgress)) : ℕ :=
  edgeCount false (pgs.map fun pg => moduleVal pg m)

/-- Checkpoint fractions of `useSimulatedProgress` (lines 105-110). -/
def checkpoint : ModuleName → ℚ
  | .speechSystem => 2/10
  | .voiceEngine => 4/10
  | .knowledgeCore => 65/100
  | .visionSystem => 85/100

/-- `const pct = Math.min(1, t / ms)` with `ms = 12000`. -/
def simPct (t : ℚ) : ℚ := min 1 (t / 12000)

/-- The snapshot `useSimulatedProgress` publishes at elapsed time `t`
(lines 101-124).  All four module keys are always present. -/
def simSnapshot (t : ℚ) : InitProgress :=
  let pct := simPct t
  let modules : ModuleName → Option Bool := fun m => some (decide (checkpoint m ≤ pct))
  let ready :=
    decide ((95 : ℚ)/100 ≤ pct) &&
      ((MODULES.filter fun m => (modules m).getD false).length == MODULES.length)
  { systemReady := ready
    percent := some pct
    modules := some modules
    message := some (if ready then "System Ready" else "Integrating modules...") }

/-- The emissions of the simulated-progress driver at the given frame times:
each frame publishes a snapshot, and the next frame is scheduled only while
`pct < 1` (line 125). -/
def simRun : List ℚ → List InitProgress
  | [] => []
  | t :: ts => simSnapshot t :: (if simPct t < 1 then simRun ts else [])

/-- `s` with its `percent` field clamped into `[0,1]` (when present). -/
def clampPercentOf (s : InitProgress) : InitProgress :=
  { s with percent := s.percent.map fun x => clamp x 0 1 }

/-- Timer/side-effect state of a mounted `InitializationScreen`, tracking
everything the claims observe: the committed phase, `prevModulesRef`, the
2500 ms hold `setTimeout` `t` (whose handle the phase effect keeps and whose
`clearTimeout` it returns as a cleanup when it armed it), the 800 ms fade
`setTimeout` `t2` (whose handle nothing retains), the `setGlitching(false)`
timeouts (whose handles nothing retains), the `fadeOut` flag and the number
of `onDone` invocations. -/
structure CompState where
  phase : ℕ
  prevModules : ModuleName → Bool
  /-- expiry time of the pending hold timer `t`, if armed and not cleared -/
  holdExpiry : Option ℚ
  /-- whether the last run of the phase effect returned `() => clearTimeout(t)` -/
  holdCleanup : Bool
  fadeOut : Bool
  /-- expiry time of the pending fade timer `t2`; no cleanup ever clears it -/
  doneExpiry : Option ℚ
  onDoneCount : ℕ
  /-- expiry times of pending glitch-clear timeouts; the code discards their
  handles, so no cleanup can clear them -/
  glitchTimers : List ℚ
  /-- how many times the terminal hold timer was armed -/
  holdArms : ℕ
  /-- cues played so far (`ping.play()` calls), in order -/
  pingsPlayed : List ModuleName
  /-- `chime.play()` calls so far -/
  chimesPlayed : ℕ
  unmounted : Bool
  /-- expiry times of glitch-clear timeouts that fired after unmount -/
  postUnmountFirings : List ℚ

/-- Freshly mounted component: phase `AWAKENING`, empty `prevModulesRef`,
no pending timers. -/
def initialComp : CompState :=
  { phase := PHASE.AWAKENING
    prevModules := fun _ => false
    holdExpiry := none
    holdCleanup := false
    fadeOut := false
    doneExpiry := none
    onDoneCount := 0
    glitchTimers := []
    holdArms := 0
    pingsPlayed := []
    chimesPlayed := 0
    unmounted := false
    postUnmountFirings := [] }

/-- One run of the module-ready ping effect at wall time `τ`: plays a cue and
arms a 200 ms glitch-clear timeout per fresh edge, then overwrites
`prevModulesRef.current`.  The effect registers no cleanup. -/
def runPingEffect (st : CompState) (pg : Option InitProgress) (τ : ℚ) : CompState :=
  { st with
    prevModules := (pingEffectRun st.prevModules pg).1
    pingsPlayed := st.pingsPlayed ++ (pingEffectRun st.prevModules pg).2.pings
    glitchTimers := st.glitchTimers ++
      (pingEffectRun st.prevModules pg).2.glitchDurations.map fun d => τ + d }

/-- One run of the phase-progression effect at wall time `τ`.  React first
executes the cleanup returned by the effect's previous run — `clearTimeout(t)`
whenever that run armed the hold timer — and then the effect body. -/
def runPhaseEffect (st : CompState) (pg : Option InitProgress) (τ : ℚ) : CompState :=
  let st1 := if st.holdCleanup then { st with holdExpiry := none, holdCleanup := false } else st
  let eff := phaseEffectRun st1.phase pg
  { st1 with
    phase := eff.newPhase
    glitchTimers := st1.glitchTimers ++ eff.glitchDurations.map fun d => τ + d
    holdExpiry := if eff.armHold then some (τ + 2500) else st1.holdExpiry
    holdCleanup := eff.armHold
    holdArms := st1.holdArms + (if eff.armHold then 1 else 0)
    chimesPlayed := st1.chimesPlayed + (if eff.chime then 1 else 0) }

/-- Delivery of a fresh snapshot at wall time `τ`: the ping effect and the
phase effect run (in declaration order).  When the phase effect commits a new
phase, its dependency array changes, so React re-renders and re-runs it
immediately — which begins by executing the cleanup the arming run just
returned.  (The ping effect's dependency, `pg?.modules`, is unchanged on that
re-render, so it does not re-run.) -/
def deliver (st : CompState) (pg : Option InitProgress) (τ : ℚ) : CompState :=
  if st.unmounted then st
  else
    let st1 := runPingEffect st pg τ
    let st2 := runPhaseEffect st1 pg τ
    if st2.phase = st1.phase then st2 else runPhaseEffect st2 pg τ

/-- Wall clock advances to `τ`: every due timer fires.  The hold timer `t`
sets `fadeOut` and arms `t2` 800 ms later; `t2` invokes `onDone`; glitch
timeouts fire and, after unmount, are recorded as post-teardown firings. -/
def fireDue (st : CompState) (τ : ℚ) : CompState :=
  let due := st.glitchTimers.filter fun e => decide (e ≤ τ)
  let st1 := { st with
    glitchTimers := st.glitchTimers.filter fun e => decide (τ < e)
    postUnmountFirings := st.postUnmountFirings ++ (if st.unmounted then due else []) }
  let st2 :=
    match st1.holdExpiry with
    | some e => if e ≤ τ then
        { st1 with holdExpiry := none, fadeOut := true, doneExpiry := some (e + 800) }
      else st1
    | none => st1
  match st2.doneExpiry with
  | some e => if e ≤ τ then
      { st2 with doneExpiry := none, onDoneCount := st2.onDoneCount + 1 }
    else st2
  | none => st2

/-- Teardown: React executes the last registered cleanup of each effect.
Only the phase effect ever registers one (`clearTimeout(t)` when it armed the
hold timer); the glitch-clear and `t2` timeout handles were discarded, so
they stay pending. -/
def unmount (st : CompState) : CompState :=
  let st1 := if st.holdCleanup then { st with holdExpiry := none, holdCleanup := false } else st
  { st1 with unmounted := true }

/-- Externally visible events driving a component lifetime. -/
inductive HostEvent where
  | deliverEv (pg : Option InitProgress) (τ : ℚ)
  | tickEv (τ : ℚ)
  | unmountEv

/-- Run a component lifetime from a state through a list of events. -/
def runEvents : CompState → List HostEvent → CompState
  | st, [] => st
  | st, HostEvent.deliverEv pg τ :: evs => runEvents (deliver st pg τ) evs
  | st, HostEvent.tickEv τ :: evs => runEvents (fireDue st τ) evs
  | st, HostEvent.unmountEv :: evs => runEvents (unmount st) evs

/-- The glitch flag at time `T` given the transition pulses `(start, duration)`
of a lifetime.  `setGlitching(true)` writes at each pulse start, and each
pulse arms its own one-shot `setTimeout` writing `false` at `start + duration`;
no pulse clears a pending timer of an earlier pulse, and the flag holds the
value of the chronologically last write. -/
def glitchAt (pulses : List (ℚ × ℚ)) (T : ℚ) : Prop :=
  ∃ p ∈ pulses, p.1 ≤ T ∧ ∀ q ∈ pulses, q.1 + q.2 ≤ T → q.1 + q.2 < p.1

/-- A snapshot carrying only `systemReady: true`. -/
def readySnap : InitProgress :=
  { systemReady := true, percent := none, modules := none, message := none }

/-- A modules object with the single key `"Speech System": true`. -/
def speechTrueFun : ModuleName → Option Bool := fun m =>
  match m with
  | .speechSystem => some true
  | _ => none

/-- A modules object with the single key `"Speech System": false`. -/
def speechFalseFun : ModuleName → Option Bool := fun m =>
  match m with
  | .speechSystem => some false
  | _ => none

/-- The empty modules object `{}`. -/
def emptyFun : ModuleName → Option Bool := fun _ => none

/-- Snapshot whose modules object is `{"Speech System": true}`. -/
def snapSpeechTrue : InitProgress :=
  { systemReady := false, percent := none, modules := some speechTrueFun, message := none }

/-- Snapshot whose modules object is `{"Speech System": false}`. -/
def snapSpeechFalse : InitProgress :=
  { systemReady := false, percent := none, modules := some speechFalseFun, message := none }

/-- Snapshot with `percent: 0.2` and a present but empty modules object. -/
def emptyModulesSnap : InitProgress :=
  { systemReady := false, percent := some (2/10), modules := some emptyFun, message := none }

/-- Snapshot with `percent: 0.2` and the single-key modules object
`{"Speech System": false}`. -/
def oneKeySnap : InitProgress :=
  { systemReady := false, percent := some (2/10), modules := some speechFalseFun, message := none }

lemma of_rule1 {p : ℕ} {pg : Option InitProgress} (h : rule1 p pg = true) :
    p = PHASE.AWAKENING := by
  simp only [rule1, Bool.and_eq_true, beq_iff_eq] at h
  exact h.1

lemma of_rule2 {p : ℕ} {pg : Option InitProgress} (h : rule2 p pg = true) :
    p ≤ PHASE.ACTIVATION := by
  simp only [rule2, Bool.and_eq_true, decide_eq_true_eq] at h
  exact h.1

lemma phaseStep_stable (pg : Option InitProgress) :
    phaseStep PHASE.STABLE pg = PHASE.STABLE := by
  simp [phaseStep, phaseEffectRun, rule1, rule2, rule3, PHASE.AWAKENING,
    PHASE.ACTIVATION, PHASE.STABLE]

lemma le_phaseStep {p : ℕ} (hp : p ≤ 4) (pg : Option InitProgress) :
    p ≤ phaseStep p pg := by
  unfold phaseStep phaseEffectRun
  by_cases h3 : rule3 p pg = true
  · simpa [h3, PHASE.STABLE] using hp
  · rw [Bool.not_eq_true] at h3
    by_cases h2 : rule2 p pg = true
    · have hle := of_rule2 h2
      simp only [PHASE.ACTIVATION] at hle
      simp only [h3, h2, Bool.false_eq_true, if_false, if_true, PHASE.MODULES]
      omega
    · rw [Bool.not_eq_true] at h2
      by_cases h1 : rule1 p pg = true
      · have heq := of_rule1 h1
        simp only [PHASE.AWAKENING] at heq
        simp only [h3, h2, h1, Bool.false_eq_true, if_false, if_true, PHASE.ACTIVATION]
        omega
      · rw [Bool.not_eq_true] at h1
        simp [h3, h2, h1]

lemma phaseStep_le_four {p : ℕ} (hp : p ≤ 4) (pg : Option InitProgress) :
    phaseStep p pg ≤ 4 := by
  unfold phaseStep phaseEffectRun
  by_cases h3 : rule3 p pg = true
  · simp [h3, PHASE.STABLE]
  · rw [Bool.not_eq_true] at h3
    by_cases h2 : rule2 p pg = true
    · simp [h3, h2, PHASE.MODULES]
    · rw [Bool.not_eq_true] at h2
      by_cases h1 : rule1 p pg = true
      · simp [h3, h2, h1, PHASE.ACTIVATION]
      · rw [Bool.not_eq_true] at h1
        simpa [h3, h2, h1] using hp

lemma scanl_head {α β : Type} (f : β → α → β) (b : β) (l : List α) :
    (List.scanl f b l).head? = some b := by
  cases l <;> simp [List.scanl]

lemma chain_le_scanl (pgs : List (Option InitProgress)) :
    ∀ p : ℕ, p ≤ 4 → List.Chain' (· ≤ ·) (List.scanl phaseStep p pgs) := by
  induction pgs with
  | nil => intro p _; simp
  | cons pg pgs ih =>
    intro p hp
    rw [List.scanl_cons]
    refine List.chain'_cons'.mpr ⟨?_, ih _ (phaseStep_le_four hp pg)⟩
    intro q hq
    simp only [List.append_eq, List.nil_append, scanl_head, Option.mem_def,
      Option.some.injEq] at hq
    subst hq
    exact le_phaseStep hp pg

/-- C1: over every sequence of snapshot applications the committed phase is
monotonically non-decreasing over AWAKENING(1) < ACTIVATION(2) < MODULES(3) <
STABLE(4), and once STABLE is reached no later snapshot changes the phase. -/
theorem phase_monotone (pgs : List (Option InitProgress)) :
    List.Chain' (· ≤ ·) (List.scanl phaseStep PHASE.AWAKENING pgs) ∧
    ∀ pg, phaseStep PHASE.STABLE pg = PHASE.STABLE :=
  ⟨chain_le_scanl pgs PHASE.AWAKENING (by decide), fun pg => phaseStep_stable pg⟩

/-- C2: fails on the code.  Entering STABLE arms the 2500 ms hold timer `t`
and returns `() => clearTimeout(t)` as the effect cleanup; since `phase` is in
the effect's dependency array, the `setPhase(STABLE)` commit re-runs the
effect immediately, and that re-run begins by executing the cleanup, which
cancels `t` long before it can fire.  Hence even with the wall clock run
arbitrarily far past STABLE entry, `fadeOut` is never set and `onDone` is
invoked zero times, not once. -/
theorem stable_onDone_never_fires :
    (runEvents initialComp [HostEvent.deliverEv (some readySnap) 0]).phase = PHASE.STABLE ∧
    (runEvents initialComp [HostEvent.deliverEv (some readySnap) 0]).holdArms = 1 ∧
    (runEvents initialComp [HostEvent.deliverEv (some readySnap) 0]).holdExpiry = none ∧
    (runEvents initialComp [HostEvent.deliverEv (some readySnap) 0, HostEvent.tickEv 2500,
        HostEvent.tickEv 3300, HostEvent.tickEv 1000000]).onDoneCount = 0 ∧
    (runEvents initialComp [HostEvent.deliverEv (some readySnap) 0, HostEvent.tickEv 2500,
        HostEvent.tickEv 3300, HostEvent.tickEv 1000000]).fadeOut = false := by
  decide

/-- C4: counterexample.  After STABLE has been entered (first snapshot,
`systemReady: true`), delivering a snapshot with a fresh false-to-true module
edge still plays the module-ready cue and still arms a 200 ms glitch pulse
(at 1000 + 200 = 1200), because the ping effect has no phase guard. -/
theorem post_stable_cue_counterexample :
    (runEvents initialComp [HostEvent.deliverEv (some readySnap) 0]).phase = PHASE.STABLE ∧
    (runEvents initialComp [HostEvent.deliverEv (some readySnap) 0]).pingsPlayed = [] ∧
    (runEvents initialComp [HostEvent.deliverEv (some readySnap) 0,
        HostEvent.deliverEv (some snapSpeechTrue) 1000]).pingsPlayed
      = [ModuleName.speechSystem] ∧
    (runEvents initialComp [HostEvent.deliverEv (some readySnap) 0,
        HostEvent.deliverEv (some snapSpeechTrue) 1000]).glitchTimers = [500, 1200] := by
  norm_num [runEvents, deliver, runPingEffect, runPhaseEffect, initialComp,
    pingEffectRun, phaseEffectRun, rule1, rule2, rule3, pctOf, anyModuleData,
    allReady, moduleVal, systemReadyOf, readySnap, snapSpeechTrue, speechTrueFun,
    MODULES, PHASE.AWAKENING, PHASE.ACTIVATION, PHASE.MODULES, PHASE.STABLE]

/-- C5: counterexample.  A snapshot whose `modules` field is a present but
empty object, with `percent = 0.2 ≤ 0.30`, applied at phase ACTIVATION, does
not advance the phase to MODULES: `Object.keys(pg.modules).length > 0`
requires at least one key, so mere presence of the field is not the trigger. -/
theorem empty_modules_no_advance :
    pctOf (some emptyModulesSnap) ≤ 3/10 ∧
    emptyModulesSnap.modules.isSome = true ∧
    phaseStep PHASE.ACTIVATION (some emptyModulesSnap) = PHASE.ACTIVATION ∧
    PHASE.ACTIVATION ≠ PHASE.MODULES := by
  refine ⟨by norm_num [pctOf, emptyModulesSnap], rfl, ?_,
    by norm_num [PHASE.ACTIVATION, PHASE.MODULES]⟩
  norm_num [phaseStep, phaseEffectRun, rule1, rule2, rule3, pctOf, anyModuleData,
    allReady, moduleVal, systemReadyOf, emptyModulesSnap, emptyFun, MODULES,
    PHASE.ACTIVATION, PHASE.AWAKENING, PHASE.STABLE, PHASE.MODULES]

/-- C6: fails on the code.  Delivering a snapshot with a module edge arms a
200 ms glitch-clear timeout (ping effect) and a 300 ms one (phase
transition); neither handle is retained and neither effect returns a cleanup
for them, so unmounting immediately afterwards leaves both timers pending and
they fire after teardown. -/
theorem glitch_timer_fires_after_unmount :
    (runEvents initialComp [HostEvent.deliverEv (some snapSpeechTrue) 0,
        HostEvent.unmountEv]).unmounted = true ∧
    (runEvents initialComp [HostEvent.deliverEv (some snapSpeechTrue) 0,
        HostEvent.unmountEv]).glitchTimers = [200, 300] ∧
    (runEvents initialComp [HostEvent.deliverEv (some snapSpeechTrue) 0,
        HostEvent.unmountEv, HostEvent.tickEv 400]).postUnmountFirings = [200, 300] := by
  norm_num [runEvents, deliver, runPingEffect, runPhaseEffect, fireDue, unmount,
    initialComp, pingEffectRun, phaseEffectRun, rule1, rule2, rule3, pctOf,
    anyModuleData, allReady, moduleVal, systemReadyOf, snapSpeechTrue,
    speechTrueFun, MODULES, PHASE.AWAKENING, PHASE.ACTIVATION, PHASE.MODULES,
    PHASE.STABLE]

/-- C8: counterexample.  A 300 ms pulse at time 0 and an overlapping 500 ms
pulse at time 100: at time 320 the earlier pulse's one-shot timer has already
cleared the flag, although the later transition's full duration (100 + 500)
has not elapsed — pending clear timers are not reset by later transitions.
With the later pulse alone the flag would still be set at 320. -/
theorem glitch_overlap_counterexample :
    ¬ glitchAt [((0 : ℚ), 300), ((100 : ℚ), 500)] 320 ∧
    (100 : ℚ) ≤ 320 ∧ (320 : ℚ) < 100 + 500 ∧
    glitchAt [((100 : ℚ), 500)] 320 := by
  refine ⟨?_, by norm_num, by norm_num, ?_⟩
  · norm_num [glitchAt]
  · norm_num [glitchAt]

lemma count_MODULES (m : ModuleName) : MODULES.count m = 1 := by
  cases m <;> rfl

lemma count_filter_gen {α : Type} [DecidableEq α] (pred : α → Bool) (m : α)
    (l : List α) : (l.filter pred).count m = if pred m then l.count m else 0 := by
  induction l with
  | nil => simp
  | cons a l ih =>
    rw [List.filter_cons]
    by_cases hpa : pred a = true
    · rw [if_pos hpa, List.count_cons, List.count_cons, ih]
      by_cases ham : a = m
      · subst ham; simp [hpa]
      · simp [ham]
    · rw [if_neg hpa, ih]
      by_cases ham : a = m
      · subst ham; simp [hpa]
      · simp [List.count_cons, ham]

lemma pings_count (prev : ModuleName → Bool) (pg : Option InitProgress)
    (m : ModuleName) :
    (pingEffectRun prev pg).2.pings.count m
      = if !prev m && moduleVal pg m then 1 else 0 := by
  show (MODULES.filter fun x => !prev x && moduleVal pg x).count m = _
  rw [count_filter_gen, count_MODULES]

lemma pingCountAux_eq (m : ModuleName) (pgs : List (Option InitProgress)) :
    ∀ prev : ModuleName → Bool,
      pingCountAux m prev pgs = edgeCount (prev m) (pgs.map fun pg => moduleVal pg m) := by
  induction pgs with
  | nil => intro prev; rfl
  | cons pg rest ih =>
    intro prev
    show (pingEffectRun prev pg).2.pings.count m
        + pingCountAux m (pingEffectRun prev pg).1 rest = _
    rw [pings_count, ih]
    rfl

lemma chain_imp_all_true (bs : List Bool)
    (h : List.Chain' (fun a b : Bool => a = true → b = true) (true :: bs)) :
    ∀ x ∈ bs, x = true := by
  induction bs with
  | nil => intro x hx; cases hx
  | cons c cs ih =>
    intro x hx
    have h1 : c = true := (List.chain'_cons.mp h).1 rfl
    have h2 := (List.chain'_cons.mp h).2
    subst h1
    rcases List.mem_cons.mp hx with hx | hx
    · exact hx
    · exact ih h2 x hx

lemma edgeCount_all_true (bs : List Bool) (h : ∀ x ∈ bs, x = true) :
    edgeCount true bs = 0 := by
  induction bs with
  | nil => rfl
  | cons b rest ih =>
    have hb : b = true := h b (List.mem_cons_self b rest)
    subst hb
    show (if !true && true then 1 else 0) + edgeCount true rest = 0
    rw [ih fun x hx => h x (List.mem_cons_of_mem _ hx)]
    rfl

lemma edgeCount_le_one (bs : List Bool)
    (h : List.Chain' (fun a b : Bool => a = true → b = true) bs) :
    edgeCount false bs ≤ 1 := by
  induction bs with
  | nil => simp [edgeCount]
  | cons b rest ih =>
    cases b
    · show (if !false && false then 1 else 0) + edgeCount false rest ≤ 1
      simpa using ih h.tail
    · show (if !false && true then 1 else 0) + edgeCount true rest ≤ 1
      rw [edgeCount_all_true rest (chain_imp_all_true rest h)]
      simp

/-- C3: counterexample.  With the regression sequence
`{Speech System: true}`, `{Speech System: false}`, `{Speech System: true}`
the module-ready cue for Speech System plays twice in one component lifetime:
`prevModulesRef` only remembers the immediately preceding snapshot, so a
false-to-true edge after a regression re-fires the cue. -/
theorem ping_refires_after_regression :
    pingCountFor ModuleName.speechSystem
      [some snapSpeechTrue, some snapSpeechFalse, some snapSpeechTrue] = 2 := by
  rfl

/-- C3 (amended): the cue for module `m` plays exactly on every
false-to-true (or absent-to-true) edge of `m`'s readiness relative to the
immediately preceding snapshot — hence never on true-to-true repeats — and
it plays at most once per component lifetime provided `m`'s readiness never
regresses from true to false/absent along the sequence. -/
theorem ping_edge_semantics (m : ModuleName) :
    (∀ pgs, pingCountFor m pgs = moduleEdgeCount m pgs) ∧
    (∀ pgs, List.Chain' (fun a b : Bool => a = true → b = true)
        (pgs.map fun pg => moduleVal pg m) → pingCountFor m pgs ≤ 1) := by
  constructor
  · intro pgs
    exact pingCountAux_eq m pgs fun _ => false
  · intro pgs h
    rw [pingCountFor, pingCountAux_eq m pgs]
    exact edgeCount_le_one _ h

/-- Witness for `ping_edge_semantics` at a concrete non-regressing sequence. -/
theorem ping_edge_semantics_witness :
    pingCountFor ModuleName.speechSystem [some snapSpeechFalse, some snapSpeechTrue]
      = moduleEdgeCount ModuleName.speechSystem [some snapSpeechFalse, some snapSpeechTrue] ∧
    pingCountFor ModuleName.speechSystem [some snapSpeechFalse, some snapSpeechTrue] ≤ 1 :=
  ⟨(ping_edge_semantics ModuleName.speechSystem).1 _,
   (ping_edge_semantics ModuleName.speechSystem).2 _ (by
      have hl : (List.map (fun pg => moduleVal pg ModuleName.speechSystem)
          [some snapSpeechFalse, some snapSpeechTrue]) = [false, true] := rfl
      rw [hl]
      exact List.chain'_pair.mpr fun _ => rfl)⟩

lemma phaseEffectRun_stable (pg : Option InitProgress) :
    phaseEffectRun PHASE.STABLE pg =
      { newPhase := PHASE.STABLE, glitchDurations := [], armHold := false,
        chime := false, ambienceFadeMs := none } := by
  have h3 : rule3 PHASE.STABLE pg = false := by simp [rule3]
  have h2 : rule2 PHASE.STABLE pg = false := by
    simp [rule2, PHASE.ACTIVATION, PHASE.STABLE]
  have h1 : rule1 PHASE.STABLE pg = false := by
    simp [rule1, PHASE.AWAKENING, PHASE.STABLE]
  simp [phaseEffectRun, h1, h2, h3]

/-- C4 (amended): once STABLE has been entered, a further snapshot delivery
never changes the phase, never arms the terminal hold timer (so no further
`onDone` is scheduled), never plays the chime and never pulses the
phase-transition glitch (300/500 ms); but the module-ready ping effect has no
phase guard, so a fresh false-to-true edge still plays its cue and still arms
its 200 ms glitch pulse. -/
theorem post_stable_deliver (st : CompState) (pg : Option InitProgress) (τ : ℚ)
    (hphase : st.phase = PHASE.STABLE) (hmounted : st.unmounted = false) :
    (deliver st pg τ).phase = PHASE.STABLE ∧
    (deliver st pg τ).holdArms = st.holdArms ∧
    (deliver st pg τ).onDoneCount = st.onDoneCount ∧
    (deliver st pg τ).chimesPlayed = st.chimesPlayed ∧
    (deliver st pg τ).pingsPlayed
      = st.pingsPlayed ++ (pingEffectRun st.prevModules pg).2.pings ∧
    (deliver st pg τ).glitchTimers
      = st.glitchTimers
        ++ (pingEffectRun st.prevModules pg).2.glitchDurations.map fun d => τ + d := by
  by_cases hc : st.holdCleanup = true <;>
    simp [deliver, runPingEffect, runPhaseEffect, hmounted, hc, hphase,
      phaseEffectRun_stable]

/-- Witness for `post_stable_deliver`: the state reached by one
`systemReady: true` snapshot is in STABLE, and a later delivery bearing a
fresh edge keeps the phase, plays the cue and arms only the 200 ms pulse. -/
theorem post_stable_deliver_witness :
    (deliver (runEvents initialComp [HostEvent.deliverEv (some readySnap) 0])
        (some snapSpeechTrue) 1000).phase = PHASE.STABLE ∧
    (deliver (runEvents initialComp [HostEvent.deliverEv (some readySnap) 0])
        (some snapSpeechTrue) 1000).holdArms
      = (runEvents initialComp [HostEvent.deliverEv (some readySnap) 0]).holdArms ∧
    (deliver (runEvents initialComp [HostEvent.deliverEv (some readySnap) 0])
        (some snapSpeechTrue) 1000).onDoneCount
      = (runEvents initialComp [HostEvent.deliverEv (some readySnap) 0]).onDoneCount ∧
    (deliver (runEvents initialComp [HostEvent.deliverEv (some readySnap) 0])
        (some snapSpeechTrue) 1000).chimesPlayed
      = (runEvents initialComp [HostEvent.deliverEv (some readySnap) 0]).chimesPlayed ∧
    (deliver (runEvents initialComp [HostEvent.deliverEv (some readySnap) 0])
        (some snapSpeechTrue) 1000).pingsPlayed
      = (runEvents initialComp [HostEvent.deliverEv (some readySnap) 0]).pingsPlayed
        ++ (pingEffectRun
            (runEvents initialComp [HostEvent.deliverEv (some readySnap) 0]).prevModules
            (some snapSpeechTrue)).2.pings ∧
    (deliver (runEvents initialComp [HostEvent.deliverEv (some readySnap) 0])
        (some snapSpeechTrue) 1000).glitchTimers
      = (runEvents initialComp [HostEvent.deliverEv (some readySnap) 0]).glitchTimers
        ++ (pingEffectRun
            (runEvents initialComp [HostEvent.deliverEv (some readySnap) 0]).prevModules
            (some snapSpeechTrue)).2.glitchDurations.map fun d => (1000 : ℚ) + d :=
  post_stable_deliver _ (some snapSpeechTrue) 1000 rfl rfl

/-- C5 (amended): the trigger of transition rule 2 is the presence of at
least one key in the `moduleReadiness` object, regardless of its boolean
value; a present but empty object does not advance the phase to MODULES while
`percent ≤ 0.30`. -/
theorem modules_presence_trigger (p : ℕ) (s : InitProgress)
    (f : ModuleName → Option Bool) (hp : p ≤ PHASE.ACTIVATION)
    (hm : s.modules = some f) (hsr : s.systemReady = false)
    (hnr : allReady (some s) = false) :
    ((MODULES.any fun m => (f m).isSome) = true →
      phaseStep p (some s) = PHASE.MODULES) ∧
    ((∀ m, f m = none) → pctOf (some s) ≤ 3/10 →
      phaseStep p (some s) ≠ PHASE.MODULES) := by
  have h3 : rule3 p (some s) = false := by
    simp [rule3, systemReadyOf, hsr, hnr]
  constructor
  · intro hany
    have h2 : rule2 p (some s) = true := by
      simp [rule2, anyModuleData, hm, hany, hp]
    simp [phaseStep, phaseEffectRun, h2, h3]
  · intro hall hpct
    have hanyf : anyModuleData (some s) = false := by
      simp [anyModuleData, hm, hall, MODULES]
    have h2 : rule2 p (some s) = false := by
      simp [rule2, hanyf, not_lt.mpr hpct]
    by_cases h1 : rule1 p (some s) = true
    · simp [phaseStep, phaseEffectRun, h1, h2, h3, PHASE.ACTIVATION, PHASE.MODULES]
    · rw [Bool.not_eq_true] at h1
      simp only [phaseStep, phaseEffectRun, h1, h2, h3, Bool.false_eq_true, if_false]
      simp only [PHASE.ACTIVATION] at hp
      simp only [PHASE.MODULES]
      omega

/-- Witness for `modules_presence_trigger`: the single-key object
`{"Speech System": false}` advances ACTIVATION to MODULES, while the empty
object with the same `percent = 0.2` does not. -/
theorem modules_presence_trigger_witness :
    phaseStep PHASE.ACTIVATION (some oneKeySnap) = PHASE.MODULES ∧
    phaseStep PHASE.ACTIVATION (some emptyModulesSnap) ≠ PHASE.MODULES :=
  ⟨(modules_presence_trigger PHASE.ACTIVATION oneKeySnap speechFalseFun
      (by decide) rfl rfl rfl).1 rfl,
   (modules_presence_trigger PHASE.ACTIVATION emptyModulesSnap emptyFun
      (by decide) rfl rfl rfl).2 (fun _ => rfl)
      (by norm_num [pctOf, emptyModulesSnap])⟩

lemma sim_systemReady (t : ℚ) :
    (simSnapshot t).systemReady = decide ((95 : ℚ)/100 ≤ simPct t) := by
  by_cases h : (95 : ℚ)/100 ≤ simPct t
  · have h1 : (2 : ℚ)/10 ≤ simPct t := by linarith
    have h2 : (4 : ℚ)/10 ≤ simPct t := by linarith
    have h3 : (65 : ℚ)/100 ≤ simPct t := by linarith
    have h4 : (85 : ℚ)/100 ≤ simPct t := by linarith
    simp [simSnapshot, MODULES, checkpoint, h, h1, h2, h3, h4]
  · simp [simSnapshot, h]

lemma simRun_stops (ts1 : List ℚ) (t : ℚ) (ts2 : List ℚ)
    (hlt : ∀ u ∈ ts1, simPct u < 1) (h : 1 ≤ simPct t) :
    simRun (ts1 ++ t :: ts2) = (ts1 ++ [t]).map simSnapshot := by
  induction ts1 with
  | nil =>
    simp only [List.nil_append, simRun, List.map]
    rw [if_neg (not_lt.mpr h)]
  | cons u us ih =>
    have hu : simPct u < 1 := hlt u (List.mem_cons_self u us)
    simp only [List.cons_append, simRun, List.map_cons, List.append_eq]
    rw [if_pos hu, ih fun v hv => hlt v (List.mem_cons_of_mem _ hv)]

/-- C7: with no external progress, the simulator's snapshot at elapsed time
`t` marks each module ready exactly when the elapsed fraction has reached its
checkpoint (0.20, 0.40, 0.65, 0.85 in `MODULES` order); `systemReady` holds
exactly when the fraction is at least 0.95 (all four modules are then
automatically ready), hence already at 11400 < 12000 time units; and the
driver emits the snapshot of the first frame whose fraction reached 1.0 and
then stops emitting. -/
theorem simulator_contract :
    (∀ t : ℚ, (simSnapshot t).modules
        = some fun m => some (decide (checkpoint m ≤ simPct t))) ∧
    (∀ t : ℚ, (simSnapshot t).systemReady = decide ((95 : ℚ)/100 ≤ simPct t)) ∧
    ((simSnapshot 11400).systemReady = true ∧ (11400 : ℚ) < 12000) ∧
    (∀ (ts1 : List ℚ) (t : ℚ) (ts2 : List ℚ), (∀ u ∈ ts1, simPct u < 1) →
      1 ≤ simPct t → simRun (ts1 ++ t :: ts2) = (ts1 ++ [t]).map simSnapshot) := by
  refine ⟨fun t => rfl, sim_systemReady, ⟨?_, by norm_num⟩, simRun_stops⟩
  rw [sim_systemReady]
  have h : (95 : ℚ)/100 ≤ simPct 11400 := by norm_num [simPct, min_def]
  simp [h]

/-- Witness for `simulator_contract`: frames at 6000, 12000 and 15000 time
units emit exactly the snapshots of the first two frames. -/
theorem simulator_contract_witness :
    simRun [(6000 : ℚ), 12000, 15000] = [simSnapshot 6000, simSnapshot 12000] := by
  have h := simulator_contract.2.2.2 [6000] 12000 [15000]
    (by
      intro u hu
      rw [List.mem_singleton] at hu
      subst hu
      norm_num [simPct, min_def])
    (by norm_num [simPct, min_def])
  simpa using h

lemma anyModuleData_sim (t : ℚ) : anyModuleData (some (simSnapshot t)) = true := rfl

lemma allReady_sim_false {t : ℚ} (h : simPct t < 85/100) :
    allReady (some (simSnapshot t)) = false := by
  have hv : decide ((85 : ℚ)/100 ≤ simPct t) = false := by
    simp only [decide_eq_false_iff_not, not_le]
    exact h
  simp [allReady, MODULES, moduleVal, simSnapshot, checkpoint, hv]

lemma phaseStep_sim_ne_activation (p : ℕ) (t : ℚ) :
    phaseStep p (some (simSnapshot t)) ≠ PHASE.ACTIVATION := by
  by_cases h3 : rule3 p (some (simSnapshot t)) = true
  · simp [phaseStep, phaseEffectRun, h3, PHASE.STABLE, PHASE.ACTIVATION]
  · rw [Bool.not_eq_true] at h3
    by_cases h2 : rule2 p (some (simSnapshot t)) = true
    · simp [phaseStep, phaseEffectRun, h2, h3, PHASE.MODULES, PHASE.ACTIVATION]
    · rw [Bool.not_eq_true] at h2
      have hp2 : ¬ p ≤ PHASE.ACTIVATION := by
        intro hp
        have ht : rule2 p (some (simSnapshot t)) = true := by
          simp [rule2, hp, anyModuleData_sim]
        rw [ht] at h2
        cases h2
      have h1 : rule1 p (some (simSnapshot t)) = false := by
        by_cases hb : p = PHASE.AWAKENING
        · exfalso
          apply hp2
          rw [hb]
          simp [PHASE.AWAKENING, PHASE.ACTIVATION]
        · simp [rule1, hb]
      simp only [phaseStep, phaseEffectRun, h1, h2, h3, Bool.false_eq_true, if_false]
      intro hpe
      exact hp2 (le_of_eq hpe)

lemma activation_not_in_scanl (ts : List ℚ) :
    ∀ p : ℕ, p ≠ PHASE.ACTIVATION →
      PHASE.ACTIVATION ∉
        List.scanl phaseStep p (ts.map fun u => some (simSnapshot u)) := by
  induction ts with
  | nil =>
    intro p hp
    simp only [List.map_nil, List.scanl_nil, List.mem_singleton]
    exact fun h => hp h.symm
  | cons u us ih =>
    intro p hp
    rw [List.map_cons, List.scanl_cons]
    intro hmem
    rcases List.mem_cons.mp hmem with h | h
    · exact hp h.symm
    · have h' : PHASE.ACTIVATION ∈
          List.scanl phaseStep (phaseStep p (some (simSnapshot u)))
            (us.map fun v => some (simSnapshot v)) := by
        simpa using h
      exact ih _ (phaseStep_sim_ne_activation p u) h'

/-- C10: every simulated snapshot — the first one included — carries all four
module keys (value `false` before the checkpoint), so the "any
module-readiness data present" guard holds from the start: applied at
AWAKENING, a simulated snapshot of elapsed fraction below 0.85 moves the
phase directly to MODULES, and along any simulated frame sequence the phase
is never ACTIVATION — the 0.15 and 0.30 percent thresholds never gate
progression in the simulated case. -/
theorem sim_first_update_to_modules :
    (∀ (t : ℚ) (m : ModuleName),
        ((simSnapshot t).modules.map fun f => (f m).isSome) = some true) ∧
    (∀ t : ℚ, anyModuleData (some (simSnapshot t)) = true) ∧
    (∀ t : ℚ, simPct t < 85/100 →
        phaseStep PHASE.AWAKENING (some (simSnapshot t)) = PHASE.MODULES) ∧
    (∀ ts : List ℚ, PHASE.ACTIVATION ∉
        List.scanl phaseStep PHASE.AWAKENING (ts.map fun u => some (simSnapshot u))) := by
  refine ⟨fun t m => rfl, anyModuleData_sim, ?_,
    fun ts => activation_not_in_scanl ts _ (by decide)⟩
  intro t h
  have hs : (simSnapshot t).systemReady = false := by
    rw [sim_systemReady]
    simp only [decide_eq_false_iff_not, not_le]
    linarith
  have h3 : rule3 PHASE.AWAKENING (some (simSnapshot t)) = false := by
    simp [rule3, systemReadyOf, hs, allReady_sim_false h]
  have h2 : rule2 PHASE.AWAKENING (some (simSnapshot t)) = true := by
    simp [rule2, anyModuleData_sim, PHASE.AWAKENING, PHASE.ACTIVATION]
  simp [phaseStep, phaseEffectRun, h2, h3]

/-- Witness for `sim_first_update_to_modules` at the frame 1000 time units
after mount (fraction 1/12). -/
theorem sim_first_update_to_modules_witness :
    phaseStep PHASE.AWAKENING (some (simSnapshot 1000)) = PHASE.MODULES :=
  sim_first_update_to_modules.2.2.1 1000 (by norm_num [simPct, min_def])

/-- C8 (amended): every phase transition sets the glitch flag and arms its
own one-shot clear timer with the stated duration — 300 ms for the ordinary
transitions (rules 1 and 2), 500 ms for the STABLE transition, and one
200 ms pulse per module cue — and an isolated pulse holds the flag exactly
on `[s, s + d)`; but overlapping transitions do NOT reset the pending clear
timer: every armed timer fires independently, so an earlier short timer can
clear the flag before a later transition's full duration has elapsed. -/
theorem glitch_pulse_semantics :
    (∀ (p : ℕ) (pg : Option InitProgress), (phaseEffectRun p pg).armHold = true →
      (500 : ℚ) ∈ (phaseEffectRun p pg).glitchDurations) ∧
    (∀ (p : ℕ) (pg : Option InitProgress),
      (phaseEffectRun p pg).newPhase = PHASE.MODULES → p ≠ PHASE.MODULES →
      (300 : ℚ) ∈ (phaseEffectRun p pg).glitchDurations) ∧
    (∀ (p : ℕ) (pg : Option InitProgress),
      (phaseEffectRun p pg).newPhase = PHASE.ACTIVATION → p ≠ PHASE.ACTIVATION →
      (300 : ℚ) ∈ (phaseEffectRun p pg).glitchDurations) ∧
    (∀ (prev : ModuleName → Bool) (pg : Option InitProgress),
      (pingEffectRun prev pg).2.glitchDurations
        = (pingEffectRun prev pg).2.pings.map fun _ => (200 : ℚ)) ∧
    (∀ s d T : ℚ, 0 < d → (glitchAt [(s, d)] T ↔ s ≤ T ∧ T < s + d)) := by
  refine ⟨?_, ?_, ?_, fun prev pg => rfl, ?_⟩
  · intro p pg h
    simp [phaseEffectRun] at h ⊢
    simp [h]
  · intro p pg hnew hne
    by_cases h3 : rule3 p pg = true
    · simp [phaseEffectRun, h3, PHASE.STABLE, PHASE.MODULES] at hnew
    · rw [Bool.not_eq_true] at h3
      by_cases h2 : rule2 p pg = true
      · simp [phaseEffectRun, h2, h3]
      · rw [Bool.not_eq_true] at h2
        by_cases h1 : rule1 p pg = true
        · simp [phaseEffectRun, h1, h2, h3, PHASE.ACTIVATION, PHASE.MODULES] at hnew
        · rw [Bool.not_eq_true] at h1
          simp [phaseEffectRun, h1, h2, h3] at hnew
          exact absurd hnew hne
  · intro p pg hnew hne
    by_cases h3 : rule3 p pg = true
    · simp [phaseEffectRun, h3, PHASE.STABLE, PHASE.ACTIVATION] at hnew
    · rw [Bool.not_eq_true] at h3
      by_cases h2 : rule2 p pg = true
      · simp [phaseEffectRun, h2, h3, PHASE.MODULES, PHASE.ACTIVATION] at hnew
      · rw [Bool.not_eq_true] at h2
        by_cases h1 : rule1 p pg = true
        · simp [phaseEffectRun, h1, h2, h3]
        · rw [Bool.not_eq_true] at h1
          simp [phaseEffectRun, h1, h2, h3] at hnew
          exact absurd hnew hne
  · intro s d T hd
    constructor
    · rintro ⟨q, hq, hqT, hall⟩
      rw [List.mem_singleton] at hq
      subst hq
      refine ⟨hqT, ?_⟩
      by_contra hge
      push_neg at hge
      have hlt : s + d < s := hall (s, d) (List.mem_singleton.mpr rfl) hge
      linarith
    · rintro ⟨h1, h2⟩
      refine ⟨(s, d), List.mem_singleton.mpr rfl, h1, ?_⟩
      intro q hq hle
      rw [List.mem_singleton] at hq
      subst hq
      exact absurd hle (not_le.mpr h2)

/-- Witness for `glitch_pulse_semantics`: the STABLE entry on a
`systemReady: true` snapshot arms a 500 ms pulse, the ACTIVATION-to-MODULES
transition on a single-key modules object arms a 300 ms pulse, and an
isolated pulse of duration 300 started at 0 holds the flag at time 100. -/
theorem glitch_pulse_semantics_witness :
    (500 : ℚ) ∈ (phaseEffectRun PHASE.AWAKENING (some readySnap)).glitchDurations ∧
    (300 : ℚ) ∈ (phaseEffectRun PHASE.ACTIVATION (some snapSpeechFalse)).glitchDurations ∧
    (glitchAt [((0 : ℚ), 300)] 100 ↔ (0 : ℚ) ≤ 100 ∧ (100 : ℚ) < 0 + 300) :=
  ⟨glitch_pulse_semantics.1 PHASE.AWAKENING (some readySnap) rfl,
   glitch_pulse_semantics.2.1 PHASE.ACTIVATION (some snapSpeechFalse)
     (by
       norm_num [phaseEffectRun, rule1, rule2, rule3, pctOf, anyModuleData,
         allReady, moduleVal, systemReadyOf, snapSpeechFalse, speechFalseFun,
         MODULES, PHASE.AWAKENING, PHASE.ACTIVATION, PHASE.MODULES, PHASE.STABLE])
     (by decide),
   glitch_pulse_semantics.2.2.2.2 0 300 100 (by norm_num)⟩

lemma clamp_threshold {θ : ℚ} (x : ℚ) (h0 : 0 ≤ θ) (h1 : θ < 1) :
    (θ < clamp x 0 1) ↔ θ < x := by
  unfold clamp
  rw [lt_max_iff, lt_min_iff]
  constructor
  · rintro (h | ⟨_, hx⟩)
    · linarith
    · exact hx
  · intro hx
    exact Or.inr ⟨h1, hx⟩

lemma pctOf_clamp (s : InitProgress) :
    pctOf (some (clampPercentOf s)) = clamp (pctOf (some s)) 0 1 := by
  cases hp : s.percent with
  | none => simp [pctOf, clampPercentOf, hp, clamp]
  | some x => simp [pctOf, clampPercentOf, hp]

/-- C9: a `percent` outside `[0, 1]` never influences the phase machine
beyond its clamped value: one run of the phase-progression effect — its
committed phase and all its side effects — on any snapshot coincides with
the run on the same snapshot with `percent` clamped into `[0, 1]`. -/
theorem percent_clamp_equiv (p : ℕ) (s : InitProgress) :
    phaseEffectRun p (some s) = phaseEffectRun p (some (clampPercentOf s)) := by
  have h15 : decide ((15 : ℚ)/100 < pctOf (some (clampPercentOf s)))
      = decide ((15 : ℚ)/100 < pctOf (some s)) := by
    rw [pctOf_clamp]
    exact decide_eq_decide.mpr (clamp_threshold _ (by norm_num) (by norm_num))
  have h30 : decide ((3 : ℚ)/10 < pctOf (some (clampPercentOf s)))
      = decide ((3 : ℚ)/10 < pctOf (some s)) := by
    rw [pctOf_clamp]
    exact decide_eq_decide.mpr (clamp_threshold _ (by norm_num) (by norm_num))
  have hr1 : rule1 p (some (clampPercentOf s)) = rule1 p (some s) := by
    unfold rule1
    rw [h15]
  have ha : anyModuleData (some (clampPercentOf s)) = anyModuleData (some s) := rfl
  have hr2 : rule2 p (some (clampPercentOf s)) = rule2 p (some s) := by
    unfold rule2
    rw [h30, ha]
  have hr3 : rule3 p (some (clampPercentOf s)) = rule3 p (some s) := rfl
  simp [phaseEffectRun, hr1, hr2, hr3]
